import Mathlib

/-!
Shallow embedding of the read-only SQL gateway of the F1 MCP server
(`mcp_server/src/f1_mcp`): the query validator (`utils/validators.py`),
the statement execution adapter (`services/databricks_client.py`),
the result formatters (`utils/formatters.py`) and the SQL tool layer
(`tools/sql_tools.py`), together with theorems settling the frozen
claims about them.

Strings are modeled as lists of characters (`Str := List Char`); the
character-level semantics of the Python regular expressions used by the
validator is embedded directly (ASCII fragment of `\b`, `\w`, `\s` and
case-insensitive literals, which is the alphabet the gateway's SQL
surface uses).
-/

namespace F1MCP

/-- Strings are modeled as lists of characters (the `data` of a `String`). -/
abbrev Str := List Char

/-- ASCII whitespace: the characters stripped by Python `str.strip()` and
matched by the regex class `\s` (ASCII fragment). -/
def pyIsSpace (c : Char) : Bool :=
  c = ' ' || c = '\t' || c = '\n' || c = '\r' || c = '\x0b' || c = '\x0c'

/-- Python `str.strip()`: remove leading and trailing whitespace. -/
def pyStrip (s : Str) : Str :=
  ((s.dropWhile pyIsSpace).reverse.dropWhile pyIsSpace).reverse

/-- Word characters for the regex `\b` word boundary (ASCII fragment of `\w`):
letters, digits and underscore. -/
def isWordChar (c : Char) : Bool :=
  c.isAlpha || c.isDigit || c = '_'

/-- Result of a validation check (`ValidationResult` in `validators.py`).
The dataclass default `error_message = None` is the `none` case. -/
structure ValidationResult where
  is_valid : Bool
  error_message : Option Str
deriving Repr, DecidableEq

namespace SQLValidator

/-- Destructive SQL keywords that are blocked (`SQLValidator.BLOCKED_KEYWORDS`),
in the order they appear in the alternation of `BLOCKED_PATTERN`. -/
def BLOCKED_KEYWORDS : List Str :=
  ["DROP", "DELETE", "TRUNCATE", "ALTER", "CREATE", "INSERT",
   "UPDATE", "MERGE", "GRANT", "REVOKE", "EXECUTE", "EXEC"].map String.data

/-- Word boundary `\b` after a matched keyword: holds at end of input or
before a non-word character. -/
def boundaryAfter : Str → Bool
  | [] => true
  | c :: _ => !isWordChar c

/-- Attempt one alternative of `BLOCKED_PATTERN` at the head of `s`: the
keyword must match case-insensitively (keywords are upper-case, so a
character matches iff its upper-case form is the keyword's character) and be
followed by a word boundary. Returns the matched slice of `s`. -/
def tryKeyword (kw s : Str) : Option Str :=
  if (s.take kw.length).map Char.toUpper = kw ∧ boundaryAfter (s.drop kw.length) = true
  then some (s.take kw.length) else none

/-- Try the keyword alternatives in pattern order at the current position. -/
def tryKeywords : List Str → Str → Option Str
  | [], _ => none
  | kw :: rest, s =>
    match tryKeyword kw s with
    | some m => some m
    | none => tryKeywords rest s

/-- Left-to-right scan of `re.search` for `BLOCKED_PATTERN`; `prevWord`
records whether the character before the current position is a word
character (this decides the leading `\b`, since every keyword starts with a
word character). -/
def blockedSearchAux : Str → Bool → Option Str
  | [], _ => none
  | c :: rest, prevWord =>
    if prevWord then blockedSearchAux rest (isWordChar c)
    else
      match tryKeywords BLOCKED_KEYWORDS (c :: rest) with
      | some m => some m
      | none => blockedSearchAux rest (isWordChar c)

/-- `SQLValidator.BLOCKED_PATTERN.search(query)`: leftmost case-insensitive
word-boundary match of a blocked keyword, `none` when the pattern does not
occur. -/
def blockedSearch (s : Str) : Option Str := blockedSearchAux s false

/-- Case-insensitive literal prefix match; returns the rest of the input on
success. Pattern literals are written upper-cased, and `Char.toUpper` leaves
non-letters unchanged, so this is `re.IGNORECASE` literal matching. -/
def litCI : Str → Str → Option Str
  | [], s => some s
  | _ :: _, [] => none
  | l :: ls, c :: cs => if Char.toUpper c = l then litCI ls cs else none

/-- Regex `\s*`: greedily skip whitespace. In every injection pattern the
token after `\s*`/`\s+` starts with a non-space character, so the greedy
scan is equivalent to the regex's backtracking search. -/
def skipSpaces (s : Str) : Str := s.dropWhile pyIsSpace

/-- Regex `\s+`: at least one whitespace character, greedily consumed. -/
def spacesPlus : Str → Option Str
  | [] => none
  | c :: t => if pyIsSpace c then some (skipSpaces t) else none

/-- Injection pattern `;\s*--` (statement terminator followed by comment). -/
def matchPat1 (s : Str) : Bool :=
  (do
    let s1 ← litCI ";".data s
    litCI "--".data (skipSpaces s1)).isSome

/-- Injection pattern `'\s*OR\s+'1'\s*=\s*'1` (classic OR injection). -/
def matchPat2 (s : Str) : Bool :=
  (do
    let s1 ← litCI "'".data s
    let s2 ← litCI "OR".data (skipSpaces s1)
    let s3 ← spacesPlus s2
    let s4 ← litCI "'1'".data s3
    let s5 ← litCI "=".data (skipSpaces s4)
    litCI "'1".data (skipSpaces s5)).isSome

/-- Injection pattern `'\s*OR\s+1\s*=\s*1` (numeric OR injection). -/
def matchPat3 (s : Str) : Bool :=
  (do
    let s1 ← litCI "'".data s
    let s2 ← litCI "OR".data (skipSpaces s1)
    let s3 ← spacesPlus s2
    let s4 ← litCI "1".data s3
    let s5 ← litCI "=".data (skipSpaces s4)
    litCI "1".data (skipSpaces s5)).isSome

/-- Injection pattern `UNION\s+SELECT`. -/
def matchPat4 (s : Str) : Bool :=
  (do
    let s1 ← litCI "UNION".data s
    let s2 ← spacesPlus s1
    litCI "SELECT".data s2).isSome

/-- Injection pattern `INTO\s+OUTFILE` (file write attempt). -/
def matchPat5 (s : Str) : Bool :=
  (do
    let s1 ← litCI "INTO".data s
    let s2 ← spacesPlus s1
    litCI "OUTFILE".data s2).isSome

/-- Injection pattern `LOAD_FILE` (file read attempt). -/
def matchPat6 (s : Str) : Bool :=
  (litCI "LOAD_FILE".data s).isSome

/-- `pattern.search`: does the matcher fire at some position of `s`? -/
def searchFrom (p : Str → Bool) : Str → Bool
  | [] => p []
  | c :: t => p (c :: t) || searchFrom p t

/-- Does the query match one of `SQLValidator.INJECTION_PATTERNS`? The
source iterates the compiled patterns and rejects on the first hit; the
rejection is the same whichever pattern fires, so the disjunction is the
observable behavior. -/
def injectionFound (s : Str) : Bool :=
  searchFrom matchPat1 s || searchFrom matchPat2 s || searchFrom matchPat3 s ||
  searchFrom matchPat4 s || searchFrom matchPat5 s || searchFrom matchPat6 s

/-- Allowed query starts, checked on the trimmed upper-cased query. -/
def allowed_starts : List Str :=
  ["SELECT", "WITH", "SHOW", "DESCRIBE", "DESC"].map String.data

/-- Python `any(query_stripped.startswith(start) for start in allowed_starts)`. -/
def startsAllowed (su : Str) : Bool :=
  allowed_starts.any (fun a => a.isPrefixOf su)

/-- `SQLValidator.validate_query`: emptiness check, blocked-keyword check,
injection-pattern check, allowed-start check, in source order. -/
def validate_query (query : Str) : ValidationResult :=
  if query = [] ∨ pyStrip query = [] then
    { is_valid := false, error_message := some "Query cannot be empty.".data }
  else
    match blockedSearch query with
    | some m =>
      { is_valid := false
        error_message := some ("Query contains blocked keyword: ".data ++
          m.map Char.toUpper ++ ". Only SELECT queries are allowed.".data) }
    | none =>
      if injectionFound query then
        { is_valid := false
          error_message := some "Query contains potentially dangerous pattern.".data }
      else if startsAllowed ((pyStrip query).map Char.toUpper) then
        { is_valid := true, error_message := none }
      else
        { is_valid := false
          error_message :=
            some "Query must start with SELECT, WITH, SHOW, or DESCRIBE. Only read operations are allowed.".data }

/-- Characters kept by `sanitize_identifier`'s class `[a-zA-Z0-9_.]`. -/
def isSafeChar (c : Char) : Bool :=
  ('a' ≤ c && c ≤ 'z') || ('A' ≤ c && c ≤ 'Z') || ('0' ≤ c && c ≤ '9') ||
  c = '_' || c = '.'

/-- `SQLValidator.sanitize_identifier`: `re.sub(r"[^a-zA-Z0-9_.]", "", identifier)`
removes every character outside the safe class, i.e. keeps the safe ones. -/
def sanitize_identifier (identifier : Str) : Str :=
  identifier.filter isSafeChar

/-- The query contains `kw` as a standalone word: some slice of the query
matches `kw` case-insensitively with a word boundary on each side. -/
def standaloneOccurs (kw : Str) (q : Str) : Prop :=
  ∃ pre mid suf, q = pre ++ mid ++ suf ∧
    mid.map Char.toUpper = kw ∧
    (∀ p, pre.getLast? = some p → isWordChar p = false) ∧
    (∀ c, suf.head? = some c → isWordChar c = false)

end SQLValidator

/-! ### Values and rendering primitives (`utils/formatters.py`) -/

/-- Floating values are modeled as unreduced fractions: an integer numerator
over a positive natural denominator (`3.14159` is `⟨314159, 100000⟩`). Every
IEEE double is such a fraction; rounding ties go to even as in IEEE
formatting. -/
structure PyFloat where
  num : Int
  den : Nat
deriving DecidableEq, Repr

/-- Values carried in result rows: the subset of Python values the gateway
handles. -/
inductive Value where
  | null : Value
  | b (bv : Bool) : Value
  | i (n : Int) : Value
  | f (x : PyFloat) : Value
  | s (str : Str) : Value
  | list (vs : List Value) : Value
  | dict (kvs : List (Str × Value)) : Value

instance : Inhabited Value := ⟨Value.null⟩

/-- Row of a query result: the association list built by
`dict(zip(columns, row_data))`. Later bindings shadow earlier ones, as in
Python dict construction. -/
abbrev Row := List (Str × Value)

/-- Python `row.get(col)`: value of the last binding of `col`, `None` when
the key is absent. -/
def rowGet (row : Row) (key : Str) : Value :=
  match row.reverse.find? (fun kv => kv.1 == key) with
  | some kv => kv.2
  | none => .null

/-- Decimal digits of a natural number. -/
def natStr (n : Nat) : Str := Nat.toDigits 10 n

/-- Python `str` of an integer. -/
def intStr (i : Int) : Str := if i < 0 then '-' :: natStr i.natAbs else natStr i.natAbs

/-- Lower-case hex digit. -/
def hexDigit (n : Nat) : Char := if n < 10 then Char.ofNat (48 + n) else Char.ofNat (87 + n)

/-- JSON string escaping of `json.dumps`: quote, backslash and control
characters (the `ensure_ascii` escaping of non-ASCII code points lies outside
the modeled ASCII alphabet). -/
def jsonEscape (s : Str) : Str :=
  (s.map fun c =>
    if c = '"' then ['\\', '"']
    else if c = '\\' then ['\\', '\\']
    else if c = '\n' then ['\\', 'n']
    else if c = '\t' then ['\\', 't']
    else if c = '\r' then ['\\', 'r']
    else if c = '\x08' then ['\\', 'b']
    else if c = '\x0c' then ['\\', 'f']
    else if c.toNat < 32 then ['\\', 'u', '0', '0', hexDigit (c.toNat / 16), hexDigit (c.toNat % 16)]
    else [c]).flatten

/-- Fractional decimal digits of `r / d` by long division, up to the given
number of digits, stopping when the remainder is zero. -/
def fracDigitsDiv : Nat → Nat → Nat → Str
  | 0, _, _ => []
  | _ + 1, 0, _ => []
  | n + 1, r, d => Char.ofNat (48 + (r * 10) / d) :: fracDigitsDiv n ((r * 10) % d) d

/-- Decimal rendering of a float value inside JSON output (`repr` of a
double); terminating decimals are rendered exactly, with a 17-digit cutoff. -/
def floatRepr (x : PyFloat) : Str :=
  let sign : Str := if x.num < 0 then ['-'] else []
  let a := x.num.natAbs
  let ds := fracDigitsDiv 17 (a % x.den) x.den
  sign ++ natStr (a / x.den) ++ '.' :: (if ds.isEmpty then ['0'] else ds)

mutual
/-- `json.dumps` with default separators, on the modeled value alphabet. -/
def jsonStr : Value → Str
  | .null => "null".data
  | .b true => "true".data
  | .b false => "false".data
  | .i n => intStr n
  | .f x => floatRepr x
  | .s str => '"' :: jsonEscape str ++ ['"']
  | .list vs => '[' :: jsonStrList vs ++ [']']
  | .dict kvs => '\x7b' :: jsonStrDict kvs ++ ['\x7d']

/-- Comma-separated serialization of a JSON array's elements. -/
def jsonStrList : List Value → Str
  | [] => []
  | [v] => jsonStr v
  | v :: vs => jsonStr v ++ ", ".data ++ jsonStrList vs

/-- Comma-separated serialization of a JSON object's entries. -/
def jsonStrDict : List (Str × Value) → Str
  | [] => []
  | [(k, v)] => '"' :: jsonEscape k ++ "\": ".data ++ jsonStr v
  | (k, v) :: kvs => ('"' :: jsonEscape k ++ "\": ".data ++ jsonStr v) ++ ", ".data ++ jsonStrDict kvs
end

/-- Round `a / d` to the nearest natural number, ties to even: the rounding
applied by `%.2f` fixed formatting. -/
def roundHalfEvenDiv (a d : Nat) : Nat :=
  if 2 * (a % d) < d then a / d
  else if d < 2 * (a % d) then a / d + 1
  else if (a / d) % 2 = 0 then a / d else a / d + 1

/-- Python `f"{value:.2f}"`: fixed two-decimal rendering of a float value. -/
def formatFixed2 (x : PyFloat) : Str :=
  let sign : Str := if x.num < 0 then ['-'] else []
  let m := roundHalfEvenDiv (x.num.natAbs * 100) x.den
  sign ++ natStr (m / 100) ++ '.' ::
    (if m % 100 < 10 then '0' :: natStr (m % 100) else natStr (m % 100))

/-- Python `sep.join(parts)`. -/
def pyJoin (sep : Str) : List Str → Str
  | [] => []
  | [x] => x
  | x :: xs => x ++ sep ++ pyJoin sep xs

/-- Result dictionary produced by the adapter and consumed by the formatters;
`none` models an absent key. -/
structure QueryResult where
  success : Bool
  columns : Option (List Str)
  rows : Option (List Row)
  row_count : Option Nat
  error : Option Str
  state : Option Str

namespace ResultFormatter

/-- `ResultFormatter._format_value`: `NULL` sentinel for `None`, two-decimal
fixed formatting for floats, JSON serialization for lists and dicts, plain
`str` conversion otherwise. -/
def format_value : Value → Str
  | .null => "NULL".data
  | .f x => formatFixed2 x
  | .list vs => jsonStr (.list vs)
  | .dict kvs => jsonStr (.dict kvs)
  | .b true => "True".data
  | .b false => "False".data
  | .i n => intStr n
  | .s str => str

/-- `ResultFormatter.format_query_result`: human-readable text rendering. -/
def format_query_result (result : QueryResult) (max_display_rows : Nat) : Str :=
  if !result.success then
    "Query failed: ".data ++ result.error.getD "Unknown error".data
  else
    let columns := result.columns.getD []
    let rows := result.rows.getD []
    let row_count := result.row_count.getD rows.length
    if columns.isEmpty then "Query returned no columns.".data
    else if rows.isEmpty then "Query returned no rows.".data
    else
      let header : Str := "Query returned ".data ++ natStr row_count ++ " row(s)".data
      let colLine : Str := "Columns: ".data ++ pyJoin ", ".data columns
      let rowLines := (rows.take max_display_rows).enum.map fun iv =>
        '[' :: natStr (iv.1 + 1) ++ "] ".data ++
          pyJoin " | ".data (columns.map fun col =>
            col ++ ": ".data ++ format_value (rowGet iv.2 col))
      let lines := [header, [], colLine, []] ++ rowLines ++
        (if max_display_rows < row_count then
          ["... and ".data ++ natStr (row_count - max_display_rows) ++ " more rows".data]
         else [])
      pyJoin "\n".data lines

/-- `ResultFormatter.format_as_markdown_table`: Markdown table rendering. -/
def format_as_markdown_table (result : QueryResult) (max_rows : Nat) : Str :=
  if !result.success then
    "**Error:** ".data ++ (match result.error with | some e => e | none => "None".data)
  else
    let columns := result.columns.getD []
    let rows := result.rows.getD []
    if columns.isEmpty || rows.isEmpty then "*No data to display*".data
    else
      let header := "| ".data ++ pyJoin " | ".data columns ++ " |".data
      let separator := "| ".data ++
        pyJoin " | ".data (List.replicate columns.length "---".data) ++ " |".data
      let data_rows := (rows.take max_rows).map fun row =>
        "| ".data ++
          pyJoin " | ".data (columns.map fun col => format_value (rowGet row col)) ++
          " |".data
      let lines := [header, separator] ++ data_rows ++
        (if max_rows < rows.length then
          ["\n*... ".data ++ natStr (rows.length - max_rows) ++ " more rows*".data]
         else [])
      pyJoin "\n".data lines

end ResultFormatter

/-! ### Statement execution adapter (`services/databricks_client.py`) -/

/-- Remote statement state (`databricks.sdk.service.sql.StatementState`). -/
inductive StatementState where
  | PENDING | RUNNING | SUCCEEDED | FAILED | CANCELED | CLOSED
deriving DecidableEq, Repr

/-- Python `str(statement.status.state)` for the enum. -/
def StatementState.str : StatementState → Str
  | .PENDING => "StatementState.PENDING".data
  | .RUNNING => "StatementState.RUNNING".data
  | .SUCCEEDED => "StatementState.SUCCEEDED".data
  | .FAILED => "StatementState.FAILED".data
  | .CANCELED => "StatementState.CANCELED".data
  | .CLOSED => "StatementState.CLOSED".data

/-- Remote response shape the adapter depends on: status state, optional
status error message, optional schema column names (presence of `manifest`
and `manifest.schema` collapsed into one option), optional row data array. -/
structure StatementResponse where
  state : StatementState
  errorMessage : Option Str
  manifestSchemaColumns : Option (List Str)
  resultDataArray : Option (List (List Value))

/-- Behavior of one call to the remote execution primitive: a returned
response, or a raised exception carrying its message `str(e)`. -/
inductive ExecOutcome where
  | ok (resp : StatementResponse)
  | exn (msg : Str)

/-- Configured settings used by the adapter (`config.py`). -/
structure Settings where
  query_timeout_seconds : Int
  max_result_rows : Int

/-- Clamped synchronous wait computed by `execute_query`:
`min(query_timeout_seconds, 50)` then `max(·, 5)`. -/
def wait_seconds (t : Int) : Int := max (min t 50) 5

/-- Python `max_rows or default` (`None` and `0` both fall back). -/
def pyOrInt (v : Option Int) (dflt : Int) : Int :=
  match v with
  | some x => if x = 0 then dflt else x
  | none => dflt

/-- `DatabricksClient.execute_query`. The remote primitive is a parameter
`prim`, receiving the query, the clamped wait and the row limit, and either
returning a response or raising; the whole interaction sits inside the
adapter's `try`/`except`. -/
def execute_query (settings : Settings) (prim : Str → Int → Int → ExecOutcome)
    (query : Str) (max_rows : Option Int) : QueryResult :=
  let maxRows := pyOrInt max_rows settings.max_result_rows
  match prim query (wait_seconds settings.query_timeout_seconds) maxRows with
  | .exn e =>
    { success := false, columns := none, rows := none, row_count := none,
      error := some e, state := none }
  | .ok resp =>
    if resp.state = .SUCCEEDED then
      let columns := resp.manifestSchemaColumns.getD []
      let rows := match resp.resultDataArray with
        | some arr => arr.map fun rowData => List.zip columns rowData
        | none => []
      { success := true, columns := some columns, rows := some rows,
        row_count := some rows.length, error := none, state := none }
    else
      { success := false, columns := none, rows := none, row_count := none,
        error := some (resp.errorMessage.getD "Query did not succeed".data),
        state := some resp.state.str }

/-! ### SQL tool layer (`tools/sql_tools.py`) -/

/-- Interaction of one tool call with the gateway collaborators: validator
decisions and queries handed to the execution client. -/
inductive GatewayEvent where
  | validated (query : Str) (accepted : Bool)
  | executed (query : Str)
deriving DecidableEq, Repr

/-- Every executed query of a trace was previously validated and accepted. -/
def validatedBeforeExecuted (t : List GatewayEvent) : Prop :=
  ∀ (i : Nat) (q : Str), t[i]? = some (GatewayEvent.executed q) →
    ∃ j : Nat, j < i ∧ t[j]? = some (GatewayEvent.validated q true)

/-- Gateway trace of `query_f1_data`: validate, then execute only on
acceptance. -/
def query_f1_data_trace (query : Str) : List GatewayEvent :=
  let v := SQLValidator.validate_query query
  if v.is_valid then [.validated query true, .executed query]
  else [.validated query false]

/-- Python `s.replace("'", "''")`. -/
def escapeQuotes (s : Str) : Str :=
  (s.map fun c => if c = Char.ofNat 39 then [Char.ofNat 39, Char.ofNat 39] else [c]).flatten

/-- Python truthiness of an optional string parameter. -/
def pyTruthyStr : Option Str → Bool
  | none => false
  | some s => !s.isEmpty

/-- Python truthiness of an optional integer parameter. -/
def pyTruthyInt : Option Int → Bool
  | none => false
  | some i => i != 0

/-- `"WHERE " + " AND ".join(conditions)` when any condition is present. -/
def whereClause (conditions : List Str) : Str :=
  if conditions = [] then [] else "WHERE ".data ++ pyJoin " AND ".data conditions

/-- Filter conditions composed by `get_driver_season_stats`. -/
def driverStatsConditions (driver_name : Option Str) (season : Option Int)
    (team_name : Option Str) : List Str :=
  (if pyTruthyStr driver_name then
    ["LOWER(driverName) LIKE LOWER('%".data ++ escapeQuotes (driver_name.getD []) ++ "%')".data]
   else []) ++
  (if pyTruthyInt season then ["season = ".data ++ intStr (season.getD 0)] else []) ++
  (if pyTruthyStr team_name then
    ["LOWER(teamName) LIKE LOWER('%".data ++ escapeQuotes (team_name.getD []) ++ "%')".data]
   else [])

/-- Query text composed by `get_driver_season_stats`. -/
def get_driver_season_stats_query (driver_name : Option Str) (season : Option Int)
    (team_name : Option Str) (limit : Int) : Str :=
  ("\n        SELECT \n            season,\n            driverName,\n" ++
   "            teamName,\n            races_count,\n            total_points,\n" ++
   "            wins,\n            podiums,\n            dnf_count,\n" ++
   "            avg_grid_position,\n            avg_finish_position,\n" ++
   "            final_champ_position\n        FROM f1.f1_gold_driver_season_stats\n        ").data ++
  whereClause (driverStatsConditions driver_name season team_name) ++
  "\n        ORDER BY season DESC, total_points DESC\n        LIMIT ".data ++
  intStr limit ++ "\n        ".data

/-- Filter conditions composed by `get_constructor_season_stats`. -/
def constructorStatsConditions (team_name : Option Str) (season : Option Int) : List Str :=
  (if pyTruthyStr team_name then
    ["LOWER(teamName) LIKE LOWER('%".data ++ escapeQuotes (team_name.getD []) ++ "%')".data]
   else []) ++
  (if pyTruthyInt season then ["season = ".data ++ intStr (season.getD 0)] else [])

/-- Query text composed by `get_constructor_season_stats`. -/
def get_constructor_season_stats_query (team_name : Option Str) (season : Option Int)
    (limit : Int) : Str :=
  ("\n        SELECT \n            season,\n            teamName,\n" ++
   "            teamNationality,\n            entries_count,\n            team_total_points,\n" ++
   "            wins,\n            podiums,\n            dnf_count,\n" ++
   "            final_cons_position\n        FROM f1.f1_gold_constructor_season_stats\n        ").data ++
  whereClause (constructorStatsConditions team_name season) ++
  "\n        ORDER BY season DESC, team_total_points DESC\n        LIMIT ".data ++
  intStr limit ++ "\n        ".data

/-- Filter conditions composed by `get_race_results`. -/
def raceResultsConditions (race_name : Option Str) (season : Option Int)
    (driver_name : Option Str) : List Str :=
  (if pyTruthyStr race_name then
    ["LOWER(raceName) LIKE LOWER('%".data ++ escapeQuotes (race_name.getD []) ++ "%')".data]
   else []) ++
  (if pyTruthyInt season then ["season = ".data ++ intStr (season.getD 0)] else []) ++
  (if pyTruthyStr driver_name then
    ["LOWER(driverName) LIKE LOWER('%".data ++ escapeQuotes (driver_name.getD []) ++ "%')".data]
   else [])

/-- Query text composed by `get_race_results`. -/
def get_race_results_query (race_name : Option Str) (season : Option Int)
    (driver_name : Option Str) (limit : Int) : Str :=
  ("\n        SELECT \n            season,\n            round,\n            raceName,\n" ++
   "            circuitName,\n            country,\n            driverName,\n" ++
   "            teamName,\n            grid,\n            race_finish_position,\n" ++
   "            race_points,\n            pit_stop_count,\n            avg_pit_stop_ms,\n" ++
   "            statusDescription\n        FROM f1.f1_gold_race_driver_features\n        ").data ++
  whereClause (raceResultsConditions race_name season driver_name) ++
  "\n        ORDER BY season DESC, round DESC, race_finish_position\n        LIMIT ".data ++
  intStr limit ++ "\n        ".data

/-- Filter conditions composed by `get_pit_stop_data`. -/
def pitStopConditions (season : Option Int) (driver_name : Option Str)
    (team_name : Option Str) : List Str :=
  (if pyTruthyInt season then ["season = ".data ++ intStr (season.getD 0)] else []) ++
  (if pyTruthyStr driver_name then
    ["LOWER(driverName) LIKE LOWER('%".data ++ escapeQuotes (driver_name.getD []) ++ "%')".data]
   else []) ++
  (if pyTruthyStr team_name then
    ["LOWER(teamName) LIKE LOWER('%".data ++ escapeQuotes (team_name.getD []) ++ "%')".data]
   else [])

/-- Query text composed by `get_pit_stop_data`. -/
def get_pit_stop_data_query (season : Option Int) (driver_name : Option Str)
    (team_name : Option Str) (limit : Int) : Str :=
  ("\n        SELECT \n            season,\n            raceName,\n            driverName,\n" ++
   "            teamName,\n            pit_stop_count,\n            avg_pit_stop_ms,\n" ++
   "            total_pit_stop_ms,\n            race_finish_position\n" ++
   "        FROM f1.f1_gold_race_driver_features\n        ").data ++
  whereClause (pitStopConditions season driver_name team_name) ++
  "\n        AND pit_stop_count > 0\n        ORDER BY season DESC, avg_pit_stop_ms\n        LIMIT ".data ++
  intStr limit ++ "\n        ".data

/-- Gateway trace of `get_driver_season_stats`: the composed query goes
straight to the execution client. -/
def get_driver_season_stats_trace (driver_name : Option Str) (season : Option Int)
    (team_name : Option Str) (limit : Int) : List GatewayEvent :=
  [.executed (get_driver_season_stats_query driver_name season team_name limit)]

/-- Gateway trace of `get_constructor_season_stats`. -/
def get_constructor_season_stats_trace (team_name : Option Str) (season : Option Int)
    (limit : Int) : List GatewayEvent :=
  [.executed (get_constructor_season_stats_query team_name season limit)]

/-- Gateway trace of `get_race_results`. -/
def get_race_results_trace (race_name : Option Str) (season : Option Int)
    (driver_name : Option Str) (limit : Int) : List GatewayEvent :=
  [.executed (get_race_results_query race_name season driver_name limit)]

/-- Gateway trace of `get_pit_stop_data`. -/
def get_pit_stop_data_trace (season : Option Int) (driver_name : Option Str)
    (team_name : Option Str) (limit : Int) : List GatewayEvent :=
  [.executed (get_pit_stop_data_query season driver_name team_name limit)]

/-! ### Concrete records used by the claims -/

/-- The injection probe of the spec's testable properties. -/
def injQuery : Str := "SELECT * FROM t WHERE x='1' OR '1'='1'".data

/-- Successful result record whose `row_count` disagrees with `len(rows)`. -/
def mismatchedResult : QueryResult :=
  { success := true, columns := some ["a".data],
    rows := some [[("a".data, Value.i 1)]],
    row_count := some 2, error := none, state := none }

/-- Canonical one-column, one-row successful record holding the value `v`. -/
def oneCellResult (v : Value) : QueryResult :=
  { success := true, columns := some ["c".data],
    rows := some [[("c".data, v)]],
    row_count := some 1, error := none, state := none }

end F1MCP

namespace F1MCP

namespace SQLValidator

theorem tryKeyword_sound {kw s m : Str} (h : tryKeyword kw s = some m) :
    m = s.take kw.length ∧ m.map Char.toUpper = kw ∧
      boundaryAfter (s.drop kw.length) = true := by
  unfold tryKeyword at h
  split at h
  · rename_i hcond
    obtain rfl : s.take kw.length = m := Option.some.inj h
    exact ⟨rfl, hcond.1, hcond.2⟩
  · cases h

theorem tryKeyword_complete {kw mid suf : Str}
    (hmid : mid.map Char.toUpper = kw) (hb : boundaryAfter suf = true) :
    tryKeyword kw (mid ++ suf) = some mid := by
  have hl : kw.length = mid.length := by rw [← hmid, List.length_map]
  unfold tryKeyword
  rw [hl, List.take_left, List.drop_left]
  simp [hmid, hb]

theorem tryKeywords_sound {l : List Str} {s m : Str}
    (h : tryKeywords l s = some m) :
    ∃ kw, kw ∈ l ∧ tryKeyword kw s = some m := by
  induction l with
  | nil => cases h
  | cons kw rest ih =>
    rw [tryKeywords] at h
    cases htk : tryKeyword kw s with
    | some m0 =>
      rw [htk] at h
      have hm : m0 = m := by simpa using h
      subst hm
      exact ⟨kw, by simp, htk⟩
    | none =>
      rw [htk] at h
      obtain ⟨kw2, hmem, hk⟩ := ih h
      exact ⟨kw2, by simp [hmem], hk⟩

theorem tryKeywords_isSome {l : List Str} {kw s m : Str}
    (hmem : kw ∈ l) (hk : tryKeyword kw s = some m) :
    (tryKeywords l s).isSome = true := by
  induction l with
  | nil => cases hmem
  | cons kw0 rest ih =>
    rw [tryKeywords]
    cases htk : tryKeyword kw0 s with
    | some m0 => simp
    | none =>
      rcases List.mem_cons.mp hmem with rfl | hmem2
      · rw [htk] at hk; cases hk
      · exact ih hmem2

theorem blockedSearchAux_sound :
    ∀ (s : Str) (b : Bool) (m : Str), blockedSearchAux s b = some m →
      ∃ pre mid suf, s = pre ++ mid ++ suf ∧ m = mid ∧
        mid.map Char.toUpper ∈ BLOCKED_KEYWORDS ∧
        (pre = [] → b = false) ∧
        (∀ p, pre.getLast? = some p → isWordChar p = false) ∧
        boundaryAfter suf = true := by
  intro s
  induction s with
  | nil => intro b m h; cases h
  | cons c rest ih =>
    intro b m h
    have step : blockedSearchAux rest (isWordChar c) = some m →
        ∃ pre mid suf, c :: rest = pre ++ mid ++ suf ∧ m = mid ∧
          mid.map Char.toUpper ∈ BLOCKED_KEYWORDS ∧
          (pre = [] → b = false) ∧
          (∀ p, pre.getLast? = some p → isWordChar p = false) ∧
          boundaryAfter suf = true := by
      intro h2
      obtain ⟨pre2, mid, suf, hs, hm, hmem, hpre0, hlast, hbnd⟩ := ih (isWordChar c) m h2
      refine ⟨c :: pre2, mid, suf, by rw [hs]; rfl, hm, hmem, by simp, ?_, hbnd⟩
      intro p hp
      cases pre2 with
      | nil =>
        have hc : c = p := by simpa using hp
        subst hc
        exact hpre0 rfl
      | cons p1 pre3 =>
        rw [List.getLast?_cons_cons] at hp
        exact hlast p hp
    rw [blockedSearchAux] at h
    cases b with
    | true =>
      rw [if_pos rfl] at h
      exact step h
    | false =>
      rw [if_neg (by simp)] at h
      cases htk : tryKeywords BLOCKED_KEYWORDS (c :: rest) with
      | none =>
        rw [htk] at h
        exact step h
      | some m0 =>
        rw [htk] at h
        have hm : m0 = m := by simpa using h
        subst hm
        obtain ⟨kw, hkmem, hk⟩ := tryKeywords_sound htk
        obtain ⟨hm0, hupper, hbnd⟩ := tryKeyword_sound hk
        refine ⟨[], m0, (c :: rest).drop kw.length, ?_, rfl, ?_, fun _ => rfl, by simp, hbnd⟩
        · rw [hm0]
          exact (List.take_append_drop kw.length (c :: rest)).symm
        · rw [hupper]; exact hkmem

theorem blocked_keywords_ne_nil : ∀ kw ∈ BLOCKED_KEYWORDS, kw ≠ [] := by decide

theorem blocked_keywords_no_space :
    ∀ kw ∈ BLOCKED_KEYWORDS, ∀ c ∈ kw, pyIsSpace c = false := by decide

theorem blockedSearchAux_isSome {kw : Str} (hkw : kw ∈ BLOCKED_KEYWORDS) :
    ∀ (pre : Str) (b : Bool) (mid suf : Str),
      mid.map Char.toUpper = kw →
      (pre = [] → b = false) →
      (∀ p, pre.getLast? = some p → isWordChar p = false) →
      boundaryAfter suf = true →
      (blockedSearchAux (pre ++ mid ++ suf) b).isSome = true := by
  intro pre
  induction pre with
  | nil =>
    intro b mid suf hmid hb0 _ hbnd
    have hb : b = false := hb0 rfl
    subst hb
    have hne : mid ≠ [] := by
      intro hmid0
      subst hmid0
      exact blocked_keywords_ne_nil kw hkw hmid.symm
    obtain ⟨c, mid2, rfl⟩ : ∃ c t, mid = c :: t := by
      cases mid with
      | nil => exact absurd rfl hne
      | cons c t => exact ⟨c, t, rfl⟩
    have hk : tryKeyword kw ((c :: mid2) ++ suf) = some (c :: mid2) :=
      tryKeyword_complete hmid hbnd
    obtain ⟨m0, hm0⟩ := Option.isSome_iff_exists.mp (tryKeywords_isSome hkw hk)
    rw [List.cons_append] at hm0
    show (blockedSearchAux (c :: (mid2 ++ suf)) false).isSome = true
    rw [blockedSearchAux, if_neg (by simp), hm0]
    simp
  | cons p pre2 ih =>
    intro b mid suf hmid _ hlast hbnd
    have hrec : (blockedSearchAux (pre2 ++ mid ++ suf) (isWordChar p)).isSome = true := by
      apply ih (isWordChar p) mid suf hmid
      · intro hpre2
        subst hpre2
        exact hlast p (by simp)
      · intro q hq
        apply hlast q
        cases pre2 with
        | nil => simp at hq
        | cons p1 pre3 => rw [List.getLast?_cons_cons]; exact hq
      · exact hbnd
    show (blockedSearchAux (p :: (pre2 ++ mid ++ suf)) b).isSome = true
    rw [blockedSearchAux]
    cases b with
    | true => rw [if_pos rfl]; exact hrec
    | false =>
      rw [if_neg (by simp)]
      cases htk : tryKeywords BLOCKED_KEYWORDS (p :: (pre2 ++ mid ++ suf)) with
      | some m0 => simp
      | none => exact hrec

theorem blockedSearch_isSome_of_occurs {kw q : Str} (hkw : kw ∈ BLOCKED_KEYWORDS)
    (hocc : standaloneOccurs kw q) : (blockedSearch q).isSome = true := by
  obtain ⟨pre, mid, suf, rfl, hmid, hlast, hhead⟩ := hocc
  have hbnd : boundaryAfter suf = true := by
    cases suf with
    | nil => rfl
    | cons c t => simp [boundaryAfter, hhead c rfl]
  exact blockedSearchAux_isSome hkw pre false mid suf hmid (fun _ => rfl) hlast hbnd

theorem blockedSearch_occurs {q m : Str} (h : blockedSearch q = some m) :
    m.map Char.toUpper ∈ BLOCKED_KEYWORDS ∧ standaloneOccurs (m.map Char.toUpper) q := by
  obtain ⟨pre, mid, suf, hq, rfl, hmem, _, hlast, hbnd⟩ :=
    blockedSearchAux_sound q false m h
  refine ⟨hmem, pre, m, suf, hq, rfl, hlast, ?_⟩
  intro c hc
  cases suf with
  | nil => simp at hc
  | cons c0 t =>
    have hcc : c0 = c := by simpa using hc
    subst hcc
    simpa [boundaryAfter] using hbnd

theorem pyStrip_eq_nil_iff {s : Str} :
    pyStrip s = [] ↔ ∀ c ∈ s, pyIsSpace c = true := by
  unfold pyStrip
  rw [List.reverse_eq_nil_iff, List.dropWhile_eq_nil_iff]
  constructor
  · intro h c hc
    have hc2 : c ∈ s.takeWhile pyIsSpace ++ s.dropWhile pyIsSpace := by
      rw [List.takeWhile_append_dropWhile]; exact hc
    rcases List.mem_append.mp hc2 with h1 | h2
    · exact List.mem_takeWhile_imp h1
    · exact h c (List.mem_reverse.mpr h2)
  · intro h c hc
    have hc2 : c ∈ s.dropWhile pyIsSpace := List.mem_reverse.mp hc
    apply h
    rw [← List.takeWhile_append_dropWhile (p := pyIsSpace) (l := s)]
    exact List.mem_append_right _ hc2

theorem toUpper_pyIsSpace {c : Char} (h : pyIsSpace c = true) : c.toUpper = c := by
  have h6 : c = ' ' ∨ c = '\t' ∨ c = '\n' ∨ c = '\r' ∨ c = '\x0b' ∨ c = '\x0c' := by
    simpa [pyIsSpace, or_assoc] using h
  rcases h6 with rfl | rfl | rfl | rfl | rfl | rfl <;> decide

theorem not_empty_of_occurs {kw q : Str} (hkw : kw ∈ BLOCKED_KEYWORDS)
    (hocc : standaloneOccurs kw q) : ¬(q = [] ∨ pyStrip q = []) := by
  obtain ⟨pre, mid, suf, rfl, hmid, _, _⟩ := hocc
  have hne : mid ≠ [] := by
    intro h0
    subst h0
    exact blocked_keywords_ne_nil kw hkw hmid.symm
  obtain ⟨c, mid2, rfl⟩ : ∃ c t, mid = c :: t := by
    cases mid with
    | nil => exact absurd rfl hne
    | cons c t => exact ⟨c, t, rfl⟩
  rintro (habs | habs)
  · simp at habs
  · have hc : pyIsSpace c = true := (pyStrip_eq_nil_iff.mp habs) c (by simp)
    have hup : Char.toUpper c ∈ kw := by
      rw [← hmid]
      exact List.mem_map_of_mem _ (by simp)
    have hns := blocked_keywords_no_space kw hkw _ hup
    rw [toUpper_pyIsSpace hc] at hns
    rw [hns] at hc
    cases hc

end SQLValidator

end F1MCP

namespace F1MCP

open SQLValidator

/-- C1: for every query string containing one of the blocked keywords as a
standalone word (case-insensitive, word-boundary match), `validate_query`
returns a rejection, and the rejection reason contains the matched blocked
keyword upper-cased (a keyword that occurs standalone in the query). -/
theorem C1_blocked_keyword_rejection (q kw : Str)
    (hkw : kw ∈ BLOCKED_KEYWORDS) (hocc : standaloneOccurs kw q) :
    (validate_query q).is_valid = false ∧
    ∃ kw2 u v, kw2 ∈ BLOCKED_KEYWORDS ∧ standaloneOccurs kw2 q ∧
      (validate_query q).error_message = some (u ++ kw2 ++ v) := by
  have hne := not_empty_of_occurs hkw hocc
  obtain ⟨m, hm⟩ := Option.isSome_iff_exists.mp (blockedSearch_isSome_of_occurs hkw hocc)
  obtain ⟨hmem, hocc2⟩ := blockedSearch_occurs hm
  unfold validate_query
  rw [if_neg hne, hm]
  exact ⟨rfl, m.map Char.toUpper, "Query contains blocked keyword: ".data,
    ". Only SELECT queries are allowed.".data, hmem, hocc2, rfl⟩

/-- Witness for C1 at the concrete query `"drop table x"`. -/
theorem C1_blocked_keyword_rejection_witness :
    (validate_query "drop table x".data).is_valid = false :=
  (C1_blocked_keyword_rejection "drop table x".data "DROP".data (by decide)
    ⟨[], "drop".data, " table x".data, by decide, by decide, by simp, by decide⟩).1

/-- C6: every query that, after trimming and upper-casing, begins with one of
the allowed starts, contains no blocked keyword as a standalone word and
matches no injection-signature pattern, is accepted by `validate_query`. -/
theorem C6_clean_query_accepted (q : Str)
    (h1 : startsAllowed ((pyStrip q).map Char.toUpper) = true)
    (h2 : ¬ ∃ kw, kw ∈ BLOCKED_KEYWORDS ∧ standaloneOccurs kw q)
    (h3 : injectionFound q = false) :
    (validate_query q).is_valid = true := by
  have hstrip : pyStrip q ≠ [] := by
    intro h0
    rw [h0] at h1
    exact absurd h1 (by decide)
  have hq : q ≠ [] := by
    intro h0
    subst h0
    exact hstrip rfl
  have hblocked : blockedSearch q = none := by
    cases hb : blockedSearch q with
    | none => rfl
    | some m =>
      obtain ⟨hmem, hocc⟩ := blockedSearch_occurs hb
      exact absurd ⟨m.map Char.toUpper, hmem, hocc⟩ h2
  unfold validate_query
  rw [if_neg (not_or.mpr ⟨hq, hstrip⟩)]
  simp only [hblocked, h3, h1]
  simp

/-- Witness for C6 at the concrete query `"SELECT 1"`. -/
theorem C6_clean_query_accepted_witness :
    (validate_query "SELECT 1".data).is_valid = true :=
  C6_clean_query_accepted "SELECT 1".data (by decide)
    (fun ⟨kw, hkw, hocc⟩ => by
      have h := blockedSearch_isSome_of_occurs hkw hocc
      rw [show blockedSearch "SELECT 1".data = none from by decide] at h
      simp at h)
    (by decide)

/-- C7: the query `SELECT * FROM t WHERE x='1' OR '1'='1'` is rejected with
the generic dangerous-pattern reason even though no blocked keyword occurs in
it as a standalone word: injection-signature detection is independent of the
keyword blocklist. -/
theorem C7_injection_independent_of_blocklist :
    validate_query injQuery =
      ⟨false, some "Query contains potentially dangerous pattern.".data⟩ ∧
    ¬ ∃ kw, kw ∈ BLOCKED_KEYWORDS ∧ standaloneOccurs kw injQuery := by
  refine ⟨by decide, ?_⟩
  rintro ⟨kw, hkw, hocc⟩
  have h := blockedSearch_isSome_of_occurs hkw hocc
  rw [show blockedSearch injQuery = none from by decide] at h
  simp at h

/-- Witness for C7: the rejection reason at the concrete injection query. -/
theorem C7_injection_independent_of_blocklist_witness :
    (validate_query injQuery).error_message =
      some "Query contains potentially dangerous pattern.".data := by
  rw [C7_injection_independent_of_blocklist.1]

/-- C10: `sanitize_identifier` only outputs characters in `[A-Za-z0-9_.]`
and is idempotent. -/
theorem C10_sanitize_identifier_safe_idempotent (s : Str) :
    (∀ c ∈ sanitize_identifier s, isSafeChar c = true) ∧
    sanitize_identifier (sanitize_identifier s) = sanitize_identifier s := by
  constructor
  · intro c hc
    exact (List.mem_filter.mp hc).2
  · simp [sanitize_identifier, List.filter_filter]

/-- Witness for C10 at the concrete identifier `"a;b"`. -/
theorem C10_sanitize_identifier_safe_idempotent_witness : isSafeChar 'a' = true :=
  (C10_sanitize_identifier_safe_idempotent "a;b".data).1 'a' (by decide)

end F1MCP

namespace F1MCP

/-- Case analysis of the adapter's three result shapes: the success shape has
no `error`/`state` and `row_count = len(rows)`; both failure shapes have no
`columns`/`rows` and a present `error`. -/
theorem execute_query_invariant (settings : Settings)
    (prim : Str → Int → Int → ExecOutcome) (query : Str) (max_rows : Option Int) :
    ((execute_query settings prim query max_rows).success = true →
      (execute_query settings prim query max_rows).error = none ∧
      (execute_query settings prim query max_rows).state = none ∧
      ∃ rs, (execute_query settings prim query max_rows).rows = some rs ∧
        (execute_query settings prim query max_rows).row_count = some rs.length) ∧
    ((execute_query settings prim query max_rows).success = false →
      (execute_query settings prim query max_rows).columns = none ∧
      (execute_query settings prim query max_rows).rows = none ∧
      ∃ e, (execute_query settings prim query max_rows).error = some e) := by
  simp only [execute_query]
  cases hout : prim query (wait_seconds settings.query_timeout_seconds)
      (pyOrInt max_rows settings.max_result_rows) with
  | exn e => simp
  | ok resp =>
    by_cases hstate : resp.state = StatementState.SUCCEEDED
    · simp [hstate]
    · simp [hstate]

/-- C3: every `QueryResult` returned by the adapter's `execute_query`
satisfies the shape invariant: success implies absent `error`/`state` and
`row_count = len(rows)`; failure implies absent `columns`/`rows` and a
present `error`. -/
theorem C3_adapter_result_invariant (settings : Settings)
    (prim : Str → Int → Int → ExecOutcome) (query : Str) (max_rows : Option Int) :
    ((execute_query settings prim query max_rows).success = true →
      (execute_query settings prim query max_rows).error = none ∧
      (execute_query settings prim query max_rows).state = none ∧
      ∃ rs, (execute_query settings prim query max_rows).rows = some rs ∧
        (execute_query settings prim query max_rows).row_count = some rs.length) ∧
    ((execute_query settings prim query max_rows).success = false →
      (execute_query settings prim query max_rows).columns = none ∧
      (execute_query settings prim query max_rows).rows = none ∧
      ∃ e, (execute_query settings prim query max_rows).error = some e) :=
  execute_query_invariant settings prim query max_rows

/-- Witness for C3 at a concrete succeeded remote response. -/
theorem C3_adapter_result_invariant_witness :
    (execute_query ⟨120, 10000⟩
      (fun _ _ _ => ExecOutcome.ok ⟨StatementState.SUCCEEDED, none, some ["c".data], some [[Value.i 1]]⟩)
      "SELECT 1".data none).error = none :=
  ((C3_adapter_result_invariant ⟨120, 10000⟩
      (fun _ _ _ => ExecOutcome.ok ⟨StatementState.SUCCEEDED, none, some ["c".data], some [[Value.i 1]]⟩)
      "SELECT 1".data none).1 rfl).1

/-- C4: whenever the remote primitive raises, `execute_query` returns the
normalized failure record carrying the exception text; no exception
propagates (the adapter is a total function into `QueryResult`). -/
theorem C4_transport_failure_normalized (settings : Settings)
    (prim : Str → Int → Int → ExecOutcome) (query : Str) (max_rows : Option Int) (e : Str)
    (h : prim query (wait_seconds settings.query_timeout_seconds)
        (pyOrInt max_rows settings.max_result_rows) = ExecOutcome.exn e) :
    execute_query settings prim query max_rows =
      { success := false, columns := none, rows := none, row_count := none,
        error := some e, state := none } := by
  simp only [execute_query]
  rw [h]

/-- Witness for C4 at a primitive that always raises. -/
theorem C4_transport_failure_normalized_witness :
    execute_query ⟨120, 10000⟩ (fun _ _ _ => ExecOutcome.exn "boom".data) "SELECT 1".data none =
      { success := false, columns := none, rows := none, row_count := none,
        error := some "boom".data, state := none } :=
  C4_transport_failure_normalized ⟨120, 10000⟩
    (fun _ _ _ => ExecOutcome.exn "boom".data) "SELECT 1".data none "boom".data rfl

/-- C5: the adapter's wait is `clamp(timeout, 5, 50)`: 5 for any timeout ≤ 5,
50 for any timeout ≥ 50, the timeout itself in between; in particular 4, 5,
50, 51 yield 5, 5, 50, 50. -/
theorem C5_wait_seconds_clamp (t : Int) :
    (t ≤ 5 → wait_seconds t = 5) ∧
    (50 ≤ t → wait_seconds t = 50) ∧
    (5 ≤ t → t ≤ 50 → wait_seconds t = t) ∧
    wait_seconds 4 = 5 ∧ wait_seconds 5 = 5 ∧
    wait_seconds 50 = 50 ∧ wait_seconds 51 = 50 := by
  refine ⟨fun h => ?_, fun h => ?_, fun h1 h2 => ?_, by decide, by decide, by decide, by decide⟩ <;>
    simp only [wait_seconds] <;> omega

/-- Witness for C5 at the boundary value 4. -/
theorem C5_wait_seconds_clamp_witness : wait_seconds 4 = 5 :=
  (C5_wait_seconds_clamp 4).1 (by decide)

end F1MCP

namespace F1MCP

/-- C8 counterexample: on a successful record whose `row_count` (2) disagrees
with `len(rows)` (1), both formatters still produce full formatted
renderings (the mismatching `row_count` even appears in the text header). -/
theorem C8_counterexample :
    mismatchedResult.success = true ∧
    mismatchedResult.row_count = some 2 ∧
    (mismatchedResult.rows.getD []).length = 1 ∧
    ResultFormatter.format_query_result mismatchedResult 50 =
      "Query returned 2 row(s)\n\nColumns: a\n\n[1] a: 1".data ∧
    ResultFormatter.format_as_markdown_table mismatchedResult 20 =
      "| a |\n| --- |\n| 1 |".data :=
  ⟨rfl, rfl, rfl, by decide, by decide⟩

/-- C8 amended: the formatters do not compare `row_count` with `len(rows)`
and render regardless (see the counterexample); the guarantee that holds is
upstream: every successful `QueryResult` produced by the adapter's
`execute_query` has `row_count` equal to the length of its rows, so no
adapter-produced record can make them disagree. -/
theorem C8_adapter_rowcount_agrees (settings : Settings)
    (prim : Str → Int → Int → ExecOutcome) (query : Str) (max_rows : Option Int)
    (h : (execute_query settings prim query max_rows).success = true) :
    (execute_query settings prim query max_rows).row_count =
      some (((execute_query settings prim query max_rows).rows.getD []).length) := by
  obtain ⟨-, -, rs, hrows, hcount⟩ := (execute_query_invariant settings prim query max_rows).1 h
  rw [hrows, hcount]
  rfl

/-- Witness for the amended C8 at a concrete succeeded remote response. -/
theorem C8_adapter_rowcount_agrees_witness :
    (execute_query ⟨120, 10000⟩
      (fun _ _ _ => ExecOutcome.ok ⟨StatementState.SUCCEEDED, none, some ["c".data], some [[Value.i 1]]⟩)
      "SELECT 1".data none).row_count = some 1 := by
  have h := C8_adapter_rowcount_agrees ⟨120, 10000⟩
    (fun _ _ _ => ExecOutcome.ok ⟨StatementState.SUCCEEDED, none, some ["c".data], some [[Value.i 1]]⟩)
    "SELECT 1".data none rfl
  exact h

/-- C9: `_format_value` maps `None` to `"NULL"`, floats to two-decimal fixed
rendering (`3.14159 ↦ "3.14"`), lists and dicts to their JSON serialization,
everything else to plain string conversion; and both the text renderer and
the markdown renderer render a cell through this same rule, the rendered cell
appearing verbatim in both outputs. -/
theorem C9_format_value_shared_rule :
    ResultFormatter.format_value Value.null = "NULL".data ∧
    ResultFormatter.format_value (Value.f ⟨314159, 100000⟩) = "3.14".data ∧
    (∀ x, ResultFormatter.format_value (Value.f x) = formatFixed2 x) ∧
    (∀ vs, ResultFormatter.format_value (Value.list vs) = jsonStr (Value.list vs)) ∧
    (∀ kvs, ResultFormatter.format_value (Value.dict kvs) = jsonStr (Value.dict kvs)) ∧
    (∀ n, ResultFormatter.format_value (Value.i n) = intStr n) ∧
    (∀ cs, ResultFormatter.format_value (Value.s cs) = cs) ∧
    ResultFormatter.format_value (Value.b true) = "True".data ∧
    ResultFormatter.format_value (Value.b false) = "False".data ∧
    (∀ v, ∃ p1 s1 p2 s2,
      ResultFormatter.format_query_result (oneCellResult v) 50 =
        p1 ++ (ResultFormatter.format_value v ++ s1) ∧
      ResultFormatter.format_as_markdown_table (oneCellResult v) 20 =
        p2 ++ (ResultFormatter.format_value v ++ s2)) := by
  refine ⟨rfl, by decide, fun x => rfl, fun vs => rfl, fun kvs => rfl, fun n => rfl,
    fun cs => rfl, rfl, rfl, fun v =>
      ⟨"Query returned 1 row(s)\n\nColumns: c\n\n[1] c: ".data, [],
       "| c |\n| --- |\n| ".data, " |".data, ?_, ?_⟩⟩
  · rw [List.append_nil]
    with_unfolding_all rfl
  · with_unfolding_all rfl

/-- C2 counterexample: the driver-stats builder tool hands its composed query
to the execution client with no preceding validation event at all. -/
theorem C2_counterexample :
    ¬ validatedBeforeExecuted (get_driver_season_stats_trace none none none 50) := by
  intro h
  obtain ⟨j, hj, -⟩ := h 0 (get_driver_season_stats_query none none none 50) rfl
  exact absurd hj (Nat.not_lt_zero j)

/-- C2 amended: `query_f1_data` routes its query through the validator and
executes only after acceptance, while the four builder tools pass their
composed queries directly to the execution client with no validation step. -/
theorem C2_amended :
    (∀ q : Str, validatedBeforeExecuted (query_f1_data_trace q)) ∧
    (∀ dn sn tn lim,
      get_driver_season_stats_trace dn sn tn lim =
        [GatewayEvent.executed (get_driver_season_stats_query dn sn tn lim)] ∧
      ∀ q b, GatewayEvent.validated q b ∉ get_driver_season_stats_trace dn sn tn lim) ∧
    (∀ tn sn lim,
      get_constructor_season_stats_trace tn sn lim =
        [GatewayEvent.executed (get_constructor_season_stats_query tn sn lim)] ∧
      ∀ q b, GatewayEvent.validated q b ∉ get_constructor_season_stats_trace tn sn lim) ∧
    (∀ rn sn dn lim,
      get_race_results_trace rn sn dn lim =
        [GatewayEvent.executed (get_race_results_query rn sn dn lim)] ∧
      ∀ q b, GatewayEvent.validated q b ∉ get_race_results_trace rn sn dn lim) ∧
    (∀ sn dn tn lim,
      get_pit_stop_data_trace sn dn tn lim =
        [GatewayEvent.executed (get_pit_stop_data_query sn dn tn lim)] ∧
      ∀ q b, GatewayEvent.validated q b ∉ get_pit_stop_data_trace sn dn tn lim) := by
  refine ⟨?_,
    fun dn sn tn lim => ⟨rfl, fun q b hmem => by
      simp [get_driver_season_stats_trace] at hmem⟩,
    fun tn sn lim => ⟨rfl, fun q b hmem => by
      simp [get_constructor_season_stats_trace] at hmem⟩,
    fun rn sn dn lim => ⟨rfl, fun q b hmem => by
      simp [get_race_results_trace] at hmem⟩,
    fun sn dn tn lim => ⟨rfl, fun q b hmem => by
      simp [get_pit_stop_data_trace] at hmem⟩⟩
  intro q i q2 hi
  simp only [query_f1_data_trace] at hi ⊢
  by_cases hv : (SQLValidator.validate_query q).is_valid = true
  · rw [if_pos hv] at hi ⊢
    rcases i with _ | _ | n
    · simp at hi
    · have hq : q = q2 := by simpa using hi
      subst hq
      exact ⟨0, Nat.zero_lt_one, rfl⟩
    · simp at hi
  · rw [if_neg hv] at hi ⊢
    rcases i with _ | n
    · simp at hi
    · simp at hi

/-- Witness for the amended C2: a builder trace carries no validation event. -/
theorem C2_amended_witness :
    GatewayEvent.validated "SELECT 1".data true ∉
      get_driver_season_stats_trace none none none 50 :=
  (C2_amended.2.1 none none none 50).2 "SELECT 1".data true

end F1MCP
